import Mathlib

/-!
Verification of the `handlebars-chrono` datetime helper pipeline
(`src/datetime.rs`, `HandlebarsChronoDateTime::call`).

The helper is embedded shallowly:

* an absolute instant (`DateTime<Utc>`) is an unbounded `Int` counting
  nanoseconds since the Unix epoch (chrono's representable range is
  enforced at the constructors, exactly as chrono does);
* a `DateTime<FixedOffset>` is a pair of such an instant and a display
  offset in seconds east of UTC (`DTF`);
* the helper's hash-parameter bag is a record of `Option String` fields,
  one per hash key the source reads (`Params`); a field is `some v` when
  the parameter is present and renders to `v`;
* fallible steps return `Except RErr _` where `RErr` is the static part
  of the `RenderErrorReason::Other` message built at the corresponding
  source line (the dynamic `format!` suffix is dropped);
* the external collaborators (chrono parsers/formatters, chrono-tz zone
  lookup, locale table) are modelled as executable Lean functions; each
  such definition carries a doc comment saying so.  The IANA zone
  database and the process-local offset are injected (`ZoneDb`,
  `localOff`), mirroring that they are ambient inputs of the call.
-/

/-! ### Numeric constants and integer parsing (Rust `str::parse`) -/

def nsPerSec : Int := 1000000000

def nsPerMin : Int := 60000000000

def nsPerHour : Int := 3600000000000

def nsPerDay : Int := 86400000000000

/-- chrono `DateTime::from_timestamp` valid seconds range (lower bound). -/
def tsSecsMin : Int := -8334601228800

/-- chrono `DateTime::from_timestamp` valid seconds range (upper bound). -/
def tsSecsMax : Int := 8210266876799

def tsMillisMin : Int := -8334601228800000

def tsMillisMax : Int := 8210266876799999

def tsMicrosMin : Int := -8334601228800000000

def tsMicrosMax : Int := 8210266876799999999

/-- Smallest representable instant, in nanoseconds (chrono `NaiveDateTime::MIN`). -/
def minInstantNanos : Int := tsSecsMin * nsPerSec

/-- Largest representable instant, in nanoseconds (chrono `NaiveDateTime::MAX`). -/
def maxInstantNanos : Int := tsSecsMax * nsPerSec + 999999999

def i64Min : Int := -9223372036854775808

def i64Max : Int := 9223372036854775807

/-- chrono `NaiveDate` year range (lower bound). -/
def yearMin : Int := -262143

/-- chrono `NaiveDate` year range (upper bound). -/
def yearMax : Int := 262142

def digitVal (c : Char) : Nat := c.toNat - 48

/-- Accumulate a decimal numeral; fails on any non-digit character. -/
def parseDigitsAux : List Char → Nat → Option Nat
  | [], acc => some acc
  | c :: cs, acc => if c.isDigit then parseDigitsAux cs (acc * 10 + digitVal c) else none

/-- A non-empty all-digit string as a natural number. -/
def parseDigitsAll (cs : List Char) : Option Nat :=
  match cs with
  | [] => none
  | _ => parseDigitsAux cs 0

/-- Modelled from the spec: Rust `str::parse` for signed integers — an
optional `+`/`-` sign followed by one or more ASCII digits. -/
def parseSigned (s : String) : Option Int :=
  match s.data with
  | '+' :: rest => (parseDigitsAll rest).map Int.ofNat
  | '-' :: rest => (parseDigitsAll rest).map (fun n => -(Int.ofNat n))
  | cs => (parseDigitsAll cs).map Int.ofNat

/-- Signed parse with the target type's range check (out of range is a
parse error in Rust). -/
def parseIntIn (lo hi : Int) (s : String) : Option Int :=
  (parseSigned s).bind fun n => if lo ≤ n ∧ n ≤ hi then some n else none

/-- Modelled from the spec: Rust `str::parse::<i64>`. -/
def parseI64 (s : String) : Option Int := parseIntIn i64Min i64Max s

/-- Modelled from the spec: Rust `str::parse::<i32>`. -/
def parseI32 (s : String) : Option Int := parseIntIn (-2147483648) 2147483647 s

/-- Modelled from the spec: Rust `str::parse` for unsigned integers — an
optional `+` sign (no `-`) followed by digits, with the range check. -/
def parseUnsignedIn (hi : Nat) (s : String) : Option Int :=
  let core := match s.data with
    | '+' :: rest => parseDigitsAll rest
    | cs => parseDigitsAll cs
  core.bind fun n => if n ≤ hi then some (Int.ofNat n) else none

/-- Modelled from the spec: Rust `str::parse::<u32>`. -/
def parseU32 (s : String) : Option Int := parseUnsignedIn 4294967295 s

/-- Modelled from the spec: Rust `str::parse::<u64>`. -/
def parseU64 (s : String) : Option Int := parseUnsignedIn 18446744073709551615 s

/-! ### Proleptic Gregorian calendar -/

def isLeapYear (y : Int) : Bool := y % 4 == 0 && (y % 100 != 0 || y % 400 == 0)

def daysInMonth (y m : Int) : Int :=
  if m = 2 then (if isLeapYear y then 29 else 28)
  else if m = 4 ∨ m = 6 ∨ m = 9 ∨ m = 11 then 30 else 31

/-- Days since 1970-01-01 of a civil date (standard days-from-civil algorithm). -/
def daysFromCivil (y m d : Int) : Int :=
  let yy := if m ≤ 2 then y - 1 else y
  let era := Int.fdiv yy 400
  let yoe := yy - era * 400
  let mp := if 2 < m then m - 3 else m + 9
  let doy := Int.fdiv (153 * mp + 2) 5 + d - 1
  let doe := yoe * 365 + Int.fdiv yoe 4 - Int.fdiv yoe 100 + doy
  era * 146097 + doe - 719468

structure Ymd where
  y : Int
  m : Int
  d : Int
deriving DecidableEq, Repr

/-- Civil date of a day count since 1970-01-01 (standard civil-from-days algorithm). -/
def civilFromDays (z : Int) : Ymd :=
  let z := z + 719468
  let era := Int.fdiv z 146097
  let doe := z - era * 146097
  let yoe := Int.fdiv (doe - Int.fdiv doe 1460 + Int.fdiv doe 36524 - Int.fdiv doe 146096) 365
  let y := yoe + era * 400
  let doy := doe - (365 * yoe + Int.fdiv yoe 4 - Int.fdiv yoe 100)
  let mp := Int.fdiv (5 * doy + 2) 153
  let d := doy - Int.fdiv (153 * mp + 2) 5 + 1
  let m := if mp < 10 then mp + 3 else mp - 9
  ⟨if m ≤ 2 then y + 1 else y, m, d⟩

/-! ### Instants -/

/-- `DateTime<FixedOffset>`: an absolute instant (nanoseconds since the
epoch) together with a display offset in seconds east of UTC. -/
structure DTF where
  nanos : Int
  offset : Int
deriving DecidableEq, Repr

/-- Local wall-clock nanoseconds of a UTC instant at a given offset. -/
def localOf (off n : Int) : Int := n + off * nsPerSec

/-- UTC instant of local wall-clock nanoseconds at a given offset. -/
def utcOf (off localNs : Int) : Int := localNs - off * nsPerSec

/-! ### The hash-parameter bag -/

/-- The hash parameters `HandlebarsChronoDateTime::call` reads via
`h.hash_get(..)`; a field is `some v` when the key is present and its
value renders to `v`. -/
structure Params where
  from_timestamp : Option String := none
  from_timestamp_millis : Option String := none
  from_timestamp_micros : Option String := none
  from_timestamp_nanos : Option String := none
  from_rfc2822 : Option String := none
  from_rfc3339 : Option String := none
  from_str : Option String := none
  input_format : Option String := none
  with_timezone : Option String := none
  with_ordinal : Option String := none
  with_ordinal0 : Option String := none
  with_year : Option String := none
  with_month : Option String := none
  with_month0 : Option String := none
  with_day : Option String := none
  with_day0 : Option String := none
  with_hour : Option String := none
  with_minute : Option String := none
  with_second : Option String := none
  with_nanosecond : Option String := none
  add_months : Option String := none
  add_weeks : Option String := none
  add_days : Option String := none
  add_hours : Option String := none
  add_minutes : Option String := none
  add_seconds : Option String := none
  add_milliseconds : Option String := none
  add_microseconds : Option String := none
  add_nanoseconds : Option String := none
  sub_months : Option String := none
  sub_weeks : Option String := none
  sub_days : Option String := none
  sub_hours : Option String := none
  sub_minutes : Option String := none
  sub_seconds : Option String := none
  sub_milliseconds : Option String := none
  sub_microseconds : Option String := none
  sub_nanoseconds : Option String := none
  output_format : Option String := none
  locale : Option String := none
  to_rfc2822 : Option String := none
  to_timestamp : Option String := none
  to_timestamp_millis : Option String := none
  to_timestamp_micros : Option String := none
  to_timestamp_nanos : Option String := none
  years_since : Option String := none
deriving DecidableEq, Repr

def emptyParams : Params := {}

/-- Errors are the static part of the `RenderErrorReason::Other` message
built at the corresponding source line (the `format!`-interpolated
suffix, when any, is dropped). -/
abbrev RErr := String

/-! ### External collaborator models (chrono / chrono-tz / locales) -/

/-- Modelled from the spec: chrono `FixedOffset::from_str` — a sign, a
two-digit hour, an optional colon, a two-digit minute, nothing after;
the resulting offset must be strictly inside one day.  Returns the
offset in seconds east. -/
def parseFixedOffset (s : String) : Option Int :=
  match s.data with
  | sign :: h1 :: h2 :: rest =>
    if (sign = '+' ∨ sign = '-') ∧ h1.isDigit ∧ h2.isDigit then
      let minPart := match rest with
        | ':' :: m1 :: m2 :: [] => if m1.isDigit ∧ m2.isDigit then some (m1, m2) else none
        | m1 :: m2 :: [] => if m1.isDigit ∧ m2.isDigit then some (m1, m2) else none
        | _ => none
      match minPart with
      | none => none
      | some (m1, m2) =>
        let h : Int := Int.ofNat (digitVal h1 * 10 + digitVal h2)
        let m : Int := Int.ofNat (digitVal m1 * 10 + digitVal m2)
        let secs := h * 3600 + m * 60
        if secs < 86400 then some (if sign = '-' then -secs else secs) else none
    else none
  | _ => none

/-- Split off the longest leading run of digits. -/
def takeDigits : List Char → List Char × List Char
  | [] => ([], [])
  | c :: cs =>
    if c.isDigit then
      let (ds, rest) := takeDigits cs
      (c :: ds, rest)
    else ([], c :: cs)

def digitsToNat (ds : List Char) : Nat := ds.foldl (fun acc c => acc * 10 + digitVal c) 0

/-- Fractional seconds (up to nine digits) as nanoseconds. -/
def fracToNanos (ds : List Char) : Option Int :=
  if ds.length = 0 ∨ 9 < ds.length then none
  else some (Int.ofNat (digitsToNat ds * 10 ^ (9 - ds.length)))

/-- Parse a trailing RFC 3339 offset designator: `Z`/`z` or `±HH:MM`.
Returns the offset in seconds east. -/
def parseRfc3339Offset : List Char → Option Int
  | ['Z'] => some 0
  | ['z'] => some 0
  | [sign, h1, h2, ':', m1, m2] =>
    if (sign = '+' ∨ sign = '-') ∧ h1.isDigit ∧ h2.isDigit ∧ m1.isDigit ∧ m2.isDigit then
      let secs : Int := Int.ofNat ((digitVal h1 * 10 + digitVal h2) * 3600 + (digitVal m1 * 10 + digitVal m2) * 60)
      if secs < 86400 then some (if sign = '-' then -secs else secs) else none
    else none
  | _ => none

/-- Modelled from the spec: chrono `DateTime::parse_from_rfc3339`
followed by `.to_utc()` — `YYYY-MM-DDTHH:MM:SS[.frac](Z|±HH:MM)`,
field-validated, returned as UTC nanoseconds since the epoch. -/
def parseRfc3339 (s : String) : Option Int :=
  match s.data with
  | y1 :: y2 :: y3 :: y4 :: '-' :: m1 :: m2 :: '-' :: d1 :: d2 :: tc :: h1 :: h2 :: ':' :: mi1 :: mi2 :: ':' :: s1 :: s2 :: rest =>
    if (tc = 'T' ∨ tc = 't' ∨ tc = ' ') ∧
        y1.isDigit ∧ y2.isDigit ∧ y3.isDigit ∧ y4.isDigit ∧ m1.isDigit ∧ m2.isDigit ∧
        d1.isDigit ∧ d2.isDigit ∧ h1.isDigit ∧ h2.isDigit ∧ mi1.isDigit ∧ mi2.isDigit ∧
        s1.isDigit ∧ s2.isDigit then
      let y : Int := Int.ofNat (digitsToNat [y1, y2, y3, y4])
      let m : Int := Int.ofNat (digitVal m1 * 10 + digitVal m2)
      let d : Int := Int.ofNat (digitVal d1 * 10 + digitVal d2)
      let hh : Int := Int.ofNat (digitVal h1 * 10 + digitVal h2)
      let mi : Int := Int.ofNat (digitVal mi1 * 10 + digitVal mi2)
      let ss : Int := Int.ofNat (digitVal s1 * 10 + digitVal s2)
      let fracRest : Option (Int × List Char) := match rest with
        | '.' :: more =>
          let (ds, rest2) := takeDigits more
          (fracToNanos ds).map (fun f => (f, rest2))
        | _ => some (0, rest)
      match fracRest with
      | none => none
      | some (frac, rest2) =>
        match parseRfc3339Offset rest2 with
        | none => none
        | some off =>
          if 1 ≤ m ∧ m ≤ 12 ∧ 1 ≤ d ∧ d ≤ daysInMonth y m ∧ hh ≤ 23 ∧ mi ≤ 59 ∧ ss ≤ 59 then
            some (daysFromCivil y m d * nsPerDay + (hh * 3600 + mi * 60 + ss) * nsPerSec + frac - off * nsPerSec)
          else none
    else none
  | _ => none

def monthAbbrevs : List (String × Int) :=
  [("Jan", 1), ("Feb", 2), ("Mar", 3), ("Apr", 4), ("May", 5), ("Jun", 6),
   ("Jul", 7), ("Aug", 8), ("Sep", 9), ("Oct", 10), ("Nov", 11), ("Dec", 12)]

def dayAbbrevs : List String := ["Mon", "Tue", "Wed", "Thu", "Fri", "Sat", "Sun"]

/-- Parse a trailing RFC 2822 numeric zone `±HHMM` (seconds east). -/
def parseRfc2822Zone : List Char → Option Int
  | [sign, h1, h2, m1, m2] =>
    if (sign = '+' ∨ sign = '-') ∧ h1.isDigit ∧ h2.isDigit ∧ m1.isDigit ∧ m2.isDigit then
      let secs : Int := Int.ofNat ((digitVal h1 * 10 + digitVal h2) * 3600 + (digitVal m1 * 10 + digitVal m2) * 60)
      some (if sign = '-' then -secs else secs)
    else none
  | _ => none

/-- Modelled from the spec: chrono `DateTime::parse_from_rfc2822`
followed by `.to_utc()`, restricted to the common layout
`[Day, ]DD Mon YYYY HH:MM:SS ±HHMM`, returned as UTC nanoseconds. -/
def parseRfc2822 (s : String) : Option Int :=
  let cs := s.data
  let afterDay : List Char := match cs with
    | a :: b :: c :: ',' :: ' ' :: rest =>
      if dayAbbrevs.contains (String.mk [a, b, c]) then rest else cs
    | _ => cs
  match afterDay with
  | d1 :: d2 :: ' ' :: n1 :: n2 :: n3 :: ' ' :: y1 :: y2 :: y3 :: y4 :: ' ' :: h1 :: h2 :: ':' :: mi1 :: mi2 :: ':' :: s1 :: s2 :: ' ' :: zone =>
    if d1.isDigit ∧ d2.isDigit ∧ y1.isDigit ∧ y2.isDigit ∧ y3.isDigit ∧ y4.isDigit ∧
        h1.isDigit ∧ h2.isDigit ∧ mi1.isDigit ∧ mi2.isDigit ∧ s1.isDigit ∧ s2.isDigit then
      match (monthAbbrevs.lookup (String.mk [n1, n2, n3]), parseRfc2822Zone zone) with
      | (some m, some off) =>
        let y : Int := Int.ofNat (digitsToNat [y1, y2, y3, y4])
        let d : Int := Int.ofNat (digitVal d1 * 10 + digitVal d2)
        let hh : Int := Int.ofNat (digitVal h1 * 10 + digitVal h2)
        let mi : Int := Int.ofNat (digitVal mi1 * 10 + digitVal mi2)
        let ss : Int := Int.ofNat (digitVal s1 * 10 + digitVal s2)
        if 1 ≤ d ∧ d ≤ daysInMonth y m ∧ hh ≤ 23 ∧ mi ≤ 59 ∧ ss ≤ 59 then
          some (daysFromCivil y m d * nsPerDay + (hh * 3600 + mi * 60 + ss) * nsPerSec - off * nsPerSec)
        else none
      | _ => none
    else none
  | _ => none

inductive FmtField where
  | fy | fm | fd | fH | fM | fS
deriving DecidableEq, Repr

structure NaiveFields where
  y : Option Int := none
  m : Option Int := none
  d : Option Int := none
  hh : Option Int := none
  mi : Option Int := none
  ss : Option Int := none
deriving DecidableEq, Repr

def takeExactlyDigits (k : Nat) (cs : List Char) : Option (Nat × List Char) :=
  let (ds, rest) := (cs.take k, cs.drop k)
  if ds.length = k ∧ ds.all Char.isDigit then some (digitsToNat ds, rest) else none

def setField (acc : NaiveFields) (f : FmtField) (v : Nat) : NaiveFields :=
  match f with
  | .fy => { acc with y := some (Int.ofNat v) }
  | .fm => { acc with m := some (Int.ofNat v) }
  | .fd => { acc with d := some (Int.ofNat v) }
  | .fH => { acc with hh := some (Int.ofNat v) }
  | .fM => { acc with mi := some (Int.ofNat v) }
  | .fS => { acc with ss := some (Int.ofNat v) }

def fieldOfSpec (c : Char) : Option (FmtField × Nat) :=
  if c = 'Y' then some (.fy, 4)
  else if c = 'm' then some (.fm, 2)
  else if c = 'd' then some (.fd, 2)
  else if c = 'H' then some (.fH, 2)
  else if c = 'M' then some (.fM, 2)
  else if c = 'S' then some (.fS, 2)
  else none

/-- Walk the format, consuming the input; both must be consumed fully. -/
def runFmtParse : List Char → List Char → NaiveFields → Option NaiveFields
  | [], [], acc => some acc
  | [], _ :: _, _ => none
  | '%' :: '%' :: fs, input, acc =>
    match input with
    | '%' :: input2 => runFmtParse fs input2 acc
    | _ => none
  | '%' :: c :: fs, input, acc =>
    match fieldOfSpec c with
    | some (f, k) =>
      match takeExactlyDigits k input with
      | some (v, rest) => runFmtParse fs rest (setField acc f v)
      | none => none
    | none => none
  | c :: fs, input, acc =>
    match input with
    | c2 :: input2 => if c = c2 then runFmtParse fs input2 acc else none
    | [] => none

/-- Modelled from the spec: chrono `NaiveDateTime::parse_from_str` with
the strftime-style pattern mini-language, restricted to the specifiers
`%Y %m %d %H %M %S %%` and literal characters.  The parsed wall-clock
fields are returned as naive nanoseconds since the epoch (no offset is
applied — the result is a naive date-time). -/
def parseFromStr (s fmt : String) : Option Int :=
  match runFmtParse fmt.data s.data {} with
  | none => none
  | some acc =>
    match acc.y, acc.m, acc.d, acc.hh, acc.mi, acc.ss with
    | some y, some m, some d, some hh, some mi, some ss =>
      if 1 ≤ m ∧ m ≤ 12 ∧ 1 ≤ d ∧ d ≤ daysInMonth y m ∧ hh ≤ 23 ∧ mi ≤ 59 ∧ ss ≤ 59 then
        some (daysFromCivil y m d * nsPerDay + (hh * 3600 + mi * 60 + ss) * nsPerSec)
      else none
    | _, _, _, _, _, _ => none

/-! ### Formatting collaborators -/

def padLeft (k : Nat) (s : String) : String :=
  if s.length < k then String.mk (List.replicate (k - s.length) '0') ++ s else s

def pad2 (n : Int) : String := padLeft 2 (toString n.toNat)

def pad4 (n : Int) : String := padLeft 4 (toString n.toNat)

/-- Local civil date, time-of-day nanoseconds of a `DTF`. -/
def localCivil (dt : DTF) : Ymd × Int :=
  let loc := localOf dt.offset dt.nanos
  (civilFromDays (Int.fdiv loc nsPerDay), Int.emod loc nsPerDay)

/-- Offset suffix `±HH:MM` of a display offset in seconds east. -/
def offsetSuffix (off : Int) : String :=
  let sign := if off < 0 then "-" else "+"
  let a := if off < 0 then -off else off
  sign ++ pad2 (Int.fdiv a 3600) ++ ":" ++ pad2 (Int.emod (Int.fdiv a 60) 60)

/-- Fractional-second suffix chosen the way chrono's `SecondsFormat::AutoSi`
does: empty, or 3, 6 or 9 digits depending on the sub-second precision. -/
def fracSuffix (subNanos : Int) : String :=
  if subNanos = 0 then ""
  else if Int.emod subNanos 1000000 = 0 then "." ++ padLeft 3 (toString (Int.fdiv subNanos 1000000).toNat)
  else if Int.emod subNanos 1000 = 0 then "." ++ padLeft 6 (toString (Int.fdiv subNanos 1000).toNat)
  else "." ++ padLeft 9 (toString subNanos.toNat)

/-- Modelled from the spec: chrono `DateTime::<FixedOffset>::to_rfc3339`
(local fields, `AutoSi` sub-seconds, `±HH:MM` offset suffix). -/
def toRfc3339 (dt : DTF) : String :=
  let (c, tod) := localCivil dt
  let secs := Int.fdiv tod nsPerSec
  pad4 c.y ++ "-" ++ pad2 c.m ++ "-" ++ pad2 c.d ++ "T" ++
    pad2 (Int.fdiv secs 3600) ++ ":" ++ pad2 (Int.emod (Int.fdiv secs 60) 60) ++ ":" ++
    pad2 (Int.emod secs 60) ++ fracSuffix (Int.emod tod nsPerSec) ++ offsetSuffix dt.offset

/-- Day-of-week index of a day count since the epoch (0 = Monday). -/
def weekdayIdx (days : Int) : Int := Int.emod (days + 3) 7

def weekdayName (i : Int) : String :=
  (dayAbbrevs.getD i.toNat "Mon")

def monthName (m : Int) : String :=
  ((monthAbbrevs.map Prod.fst).getD (m - 1).toNat "Jan")

/-- Modelled from the spec: chrono `DateTime::<FixedOffset>::to_rfc2822`
(`Day, DD Mon YYYY HH:MM:SS ±HHMM`, local fields). -/
def toRfc2822 (dt : DTF) : String :=
  let loc := localOf dt.offset dt.nanos
  let days := Int.fdiv loc nsPerDay
  let c := civilFromDays days
  let tod := Int.emod loc nsPerDay
  let secs := Int.fdiv tod nsPerSec
  let off := dt.offset
  let sign := if off < 0 then "-" else "+"
  let a := if off < 0 then -off else off
  weekdayName (weekdayIdx days) ++ ", " ++ pad2 c.d ++ " " ++ monthName c.m ++ " " ++
    pad4 c.y ++ " " ++ pad2 (Int.fdiv secs 3600) ++ ":" ++ pad2 (Int.emod (Int.fdiv secs 60) 60) ++
    ":" ++ pad2 (Int.emod secs 60) ++ " " ++ sign ++ pad2 (Int.fdiv a 3600) ++ pad2 (Int.emod (Int.fdiv a 60) 60)

/-- Modelled from the spec: chrono's strftime formatter (`format`),
restricted to the same specifier subset as `parseFromStr`; unrecognized
specifiers are emitted literally. -/
def formatDt (fmt : String) (dt : DTF) : String :=
  let (c, tod) := localCivil dt
  let secs := Int.fdiv tod nsPerSec
  let rec go : List Char → String
    | [] => ""
    | '%' :: '%' :: fs => "%" ++ go fs
    | '%' :: 'Y' :: fs => pad4 c.y ++ go fs
    | '%' :: 'm' :: fs => pad2 c.m ++ go fs
    | '%' :: 'd' :: fs => pad2 c.d ++ go fs
    | '%' :: 'H' :: fs => pad2 (Int.fdiv secs 3600) ++ go fs
    | '%' :: 'M' :: fs => pad2 (Int.emod (Int.fdiv secs 60) 60) ++ go fs
    | '%' :: 'S' :: fs => pad2 (Int.emod secs 60) ++ go fs
    | ch :: fs => String.mk [ch] ++ go fs
  go fmt.data

/-- Modelled from the spec: chrono `format_localized` — locale-aware
formatting collaborator; the numeric specifier subset modelled here does
not depend on the locale's name tables. -/
def formatLocalized (fmt : String) (_loc : String) (dt : DTF) : String := formatDt fmt dt

/-- Modelled from the spec: the supported locale tags of the `locale`
collaborator (`Locale::from_str`); a representative sample. -/
def localeOk (loc : String) : Bool :=
  ["fr_FR", "en_US", "de_DE", "bg_BG", "es_ES", "it_IT", "ja_JP"].contains loc

/-! ### Zone database collaborator -/

/-- Modelled from the spec: the IANA zone resolver (`chrono_tz::Tz`
lookup).  `lookup` maps a recognized zone identifier to its offset rule:
a function from an instant (UTC nanoseconds) to the zone's UTC offset in
seconds east at that instant. -/
structure ZoneDb where
  lookup : String → Option (Int → Int)

/-- A sample zone database standing in for the chrono-tz data used by
the repository's tests: a DST-less view of America/Edmonton (MST, -7h),
UTC and Europe/Sofia (EET, +2h). -/
def sampleDb : ZoneDb where
  lookup z :=
    if z = "America/Edmonton" then some (fun _ => -25200)
    else if z = "UTC" then some (fun _ => 0)
    else if z = "Europe/Sofia" then some (fun _ => 7200)
    else none

/-- Modelled from the spec: chrono `DateTime::years_since` — the whole
number of calendar-aware elapsed years from `base` (a UTC instant) to
`dt`; `none` when the base is later than the subject instant.  The year
count compares the two instants' civil fields at UTC. -/
def yearsCount (dt : DTF) (base : Int) : Int :=
  let a := civilFromDays (Int.fdiv dt.nanos nsPerDay)
  let at_ := Int.emod dt.nanos nsPerDay
  let b := civilFromDays (Int.fdiv base nsPerDay)
  let bt := Int.emod base nsPerDay
  let adj : Int :=
    if a.m < b.m ∨ (a.m = b.m ∧ (a.d < b.d ∨ (a.d = b.d ∧ at_ < bt))) then 1 else 0
  a.y - b.y - adj

def yearsSince (dt : DTF) (base : Int) : Option Nat :=
  if dt.nanos < base then none else some (yearsCount dt base).toNat

/-! ### Initializer stage (src/datetime.rs lines 60-137) -/

/-- The `from_timestamp` branch: parse seconds, `DateTime::from_timestamp(secs, 0)`. -/
def initFromTimestamp (s : String) : Except RErr Int :=
  match parseI64 s with
  | none => .error "Invalid seconds timestamp"
  | some t =>
    if tsSecsMin ≤ t ∧ t ≤ tsSecsMax then .ok (t * nsPerSec)
    else .error "Out-of-range number of seconds"

/-- The `from_timestamp_millis` branch. -/
def initFromTimestampMillis (s : String) : Except RErr Int :=
  match parseI64 s with
  | none => .error "Invalid milli-seconds timestamp"
  | some t =>
    if tsMillisMin ≤ t ∧ t ≤ tsMillisMax then .ok (t * 1000000)
    else .error "Out-of-range number of milliseconds"

/-- The `from_timestamp_micros` branch. -/
def initFromTimestampMicros (s : String) : Except RErr Int :=
  match parseI64 s with
  | none => .error "Invalid micro-seconds timestamp"
  | some t =>
    if tsMicrosMin ≤ t ∧ t ≤ tsMicrosMax then .ok (t * 1000)
    else .error "Number of microseconds would be out of range for a NaiveDateTime"

/-- The `from_timestamp_nanos` branch: construction is infallible on any
parsed `i64`. -/
def initFromTimestampNanos (s : String) : Except RErr Int :=
  match parseI64 s with
  | none => .error "Invalid nano-seconds timestamp"
  | some t => .ok t

/-- The `from_rfc2822` branch: parse, then `.to_utc()`. -/
def initFromRfc2822 (s : String) : Except RErr Int :=
  match parseRfc2822 s with
  | none => .error "Invalid RFC2822 datetime format"
  | some n => .ok n

/-- The `from_rfc3339` branch: parse, then `.to_utc()`. -/
def initFromRfc3339 (s : String) : Except RErr Int :=
  match parseRfc3339 s with
  | none => .error "Invalid RFC3339 datetime format"
  | some n => .ok n

/-- The `from_str` branch: requires `input_format`; the parsed naive
date-time is taken as UTC (`.and_utc()`). -/
def initFromStr (s : String) (fmtO : Option String) : Except RErr Int :=
  match fmtO with
  | none => .error "Missing `input_format` hash parameter"
  | some fmt =>
    match parseFromStr s fmt with
    | none => .error "Invalid datetime format or format doesn't match input"
    | some n => .ok n

/-- The initializer stage: the if/else-if chain over the source
parameters, in source order; `now` is the ambient `Utc::now()` instant. -/
def initStage (ps : Params) (now : Int) : Except RErr Int :=
  match ps.from_timestamp with
  | some s => initFromTimestamp s
  | none =>
  match ps.from_timestamp_millis with
  | some s => initFromTimestampMillis s
  | none =>
  match ps.from_timestamp_micros with
  | some s => initFromTimestampMicros s
  | none =>
  match ps.from_timestamp_nanos with
  | some s => initFromTimestampNanos s
  | none =>
  match ps.from_rfc2822 with
  | some s => initFromRfc2822 s
  | none =>
  match ps.from_rfc3339 with
  | some s => initFromRfc3339 s
  | none =>
  match ps.from_str with
  | some s => initFromStr s ps.input_format
  | none => .ok now

/-! ### Timezone step (src/datetime.rs lines 171-205) -/

/-- The `with_timezone` step.  `localOff` is the ambient process-local
offset (`Local::now().fixed_offset().timezone()`).  Mirrors the source's
dispatch: the literal `local` (case-insensitive), then — when the value
contains the character `0` — a fixed-offset parse, otherwise an IANA
lookup whose offset is taken at the current instant
(`datetime.with_timezone(&tz).fixed_offset().timezone()`).  Absent the
parameter, the instant is expressed with zero offset
(`datetime.fixed_offset()`). -/
def lowerChar (c : Char) : Char :=
  if 'A' ≤ c ∧ c ≤ 'Z' then Char.ofNat (c.toNat + 32) else c

/-- Modelled from the spec: Rust `str::to_lowercase`, restricted to
ASCII (sufficient for the `local` comparison it feeds). -/
def lowerAscii (s : String) : String := String.mk (s.data.map lowerChar)

def tzStage (db : ZoneDb) (localOff : Int) (ps : Params) (dt : Int) : Except RErr DTF :=
  match ps.with_timezone with
  | none => .ok ⟨dt, 0⟩
  | some s =>
    if lowerAscii s = "local" then .ok ⟨dt, localOff⟩
    else if s.data.contains '0' then
      match parseFixedOffset s with
      | some off => .ok ⟨dt, off⟩
      | none => .error "Failed to parse timezone offset. Supported values are IANA timezones, local or valid fixed offset"
    else
      match db.lookup s with
      | some rule => .ok ⟨dt, rule dt⟩
      | none => .error "Failed to parse IANA timezone. Supported values are IANA timezones, local or valid fixed offset"

/-! ### Modifier stage (src/datetime.rs lines 207-607)

Each chrono field setter and checked arithmetic step on a
`DateTime<FixedOffset>` operates on the local (offset-adjusted) fields
and never changes the display offset, so the offset is threaded through
the stage as a constant `off` and only the absolute instant `n` evolves. -/

/-- chrono `with_ordinal` on the local date (1-based day of year). -/
def withOrdinalOp (off n o : Int) : Option Int :=
  let loc := localOf off n
  let tod := Int.emod loc nsPerDay
  let c := civilFromDays (Int.fdiv loc nsPerDay)
  let top : Int := if isLeapYear c.y then 366 else 365
  if 1 ≤ o ∧ o ≤ top then
    some (utcOf off ((daysFromCivil c.y 1 1 + (o - 1)) * nsPerDay + tod))
  else none

/-- chrono `with_ordinal0` (0-based day of year). -/
def withOrdinal0Op (off n o : Int) : Option Int := withOrdinalOp off n (o + 1)

/-- chrono `with_year`: keep local month/day/time, fail on an invalid
resulting date (e.g. Feb 29 in a non-leap year) or a year outside the
representable range. -/
def withYearOp (off n y : Int) : Option Int :=
  let loc := localOf off n
  let tod := Int.emod loc nsPerDay
  let c := civilFromDays (Int.fdiv loc nsPerDay)
  if yearMin ≤ y ∧ y ≤ yearMax ∧ c.d ≤ daysInMonth y c.m then
    some (utcOf off (daysFromCivil y c.m c.d * nsPerDay + tod))
  else none

/-- chrono `with_month` (1-based). -/
def withMonthOp (off n m : Int) : Option Int :=
  let loc := localOf off n
  let tod := Int.emod loc nsPerDay
  let c := civilFromDays (Int.fdiv loc nsPerDay)
  if 1 ≤ m ∧ m ≤ 12 ∧ c.d ≤ daysInMonth c.y m then
    some (utcOf off (daysFromCivil c.y m c.d * nsPerDay + tod))
  else none

/-- chrono `with_month0` (0-based). -/
def withMonth0Op (off n m : Int) : Option Int := withMonthOp off n (m + 1)

/-- chrono `with_day` (1-based day of month). -/
def withDayOp (off n d : Int) : Option Int :=
  let loc := localOf off n
  let tod := Int.emod loc nsPerDay
  let c := civilFromDays (Int.fdiv loc nsPerDay)
  if 1 ≤ d ∧ d ≤ daysInMonth c.y c.m then
    some (utcOf off (daysFromCivil c.y c.m d * nsPerDay + tod))
  else none

/-- chrono `with_day0` (0-based day of month). -/
def withDay0Op (off n d : Int) : Option Int := withDayOp off n (d + 1)

/-- chrono `with_hour` (0-23), keeping minute/second/sub-second. -/
def withHourOp (off n h : Int) : Option Int :=
  let loc := localOf off n
  let days := Int.fdiv loc nsPerDay
  let tod := Int.emod loc nsPerDay
  if 0 ≤ h ∧ h ≤ 23 then
    some (utcOf off (days * nsPerDay + h * nsPerHour + Int.emod tod nsPerHour))
  else none

/-- chrono `with_minute` (0-59). -/
def withMinuteOp (off n mi : Int) : Option Int :=
  let loc := localOf off n
  let days := Int.fdiv loc nsPerDay
  let tod := Int.emod loc nsPerDay
  if 0 ≤ mi ∧ mi ≤ 59 then
    some (utcOf off (days * nsPerDay + Int.fdiv tod nsPerHour * nsPerHour + mi * nsPerMin + Int.emod tod nsPerMin))
  else none

/-- chrono `with_second` (0-59; leap seconds enter only via `with_nanosecond`). -/
def withSecondOp (off n s : Int) : Option Int :=
  let loc := localOf off n
  let days := Int.fdiv loc nsPerDay
  let tod := Int.emod loc nsPerDay
  if 0 ≤ s ∧ s ≤ 59 then
    some (utcOf off (days * nsPerDay + Int.fdiv tod nsPerMin * nsPerMin + s * nsPerSec + Int.emod tod nsPerSec))
  else none

/-- chrono `with_nanosecond` (0..=1,999,999,999; values beyond 10^9 - 1
encode a leap second, flattened here into the absolute count). -/
def withNanosecondOp (off n ns : Int) : Option Int :=
  let loc := localOf off n
  let days := Int.fdiv loc nsPerDay
  let tod := Int.emod loc nsPerDay
  if 0 ≤ ns ∧ ns ≤ 1999999999 then
    some (utcOf off (days * nsPerDay + Int.fdiv tod nsPerSec * nsPerSec + ns))
  else none

/-- chrono `checked_add_months` / `checked_sub_months` on the local date:
calendar-aware month shift, day-of-month clamped to the target month's
length, failing outside the representable year range. -/
def monthsShiftOp (off n delta : Int) : Option Int :=
  let loc := localOf off n
  let tod := Int.emod loc nsPerDay
  let c := civilFromDays (Int.fdiv loc nsPerDay)
  let total := c.y * 12 + (c.m - 1) + delta
  let ny := Int.fdiv total 12
  let nm := Int.emod total 12 + 1
  let nd := min c.d (daysInMonth ny nm)
  if yearMin ≤ ny ∧ ny ≤ yearMax then
    some (utcOf off (daysFromCivil ny nm nd * nsPerDay + tod))
  else none

/-- chrono `checked_add_signed` / `checked_sub_signed` / `checked_add_days`
result-range check on the instant. -/
def checkedAddNanos (n delta : Int) : Option Int :=
  let r := n + delta
  if minInstantNanos ≤ r ∧ r ≤ maxInstantNanos then some r else none

/-- chrono `TimeDelta::try_weeks`/`try_hours`/`try_minutes`/`try_seconds`/
`try_milliseconds`: the delta, in milliseconds, must fit the `TimeDelta`
bounds (±`i64Max` milliseconds).  Returns the delta in nanoseconds. -/
def tryDeltaMs (v msPerUnit : Int) : Option Int :=
  if -i64Max ≤ v * msPerUnit ∧ v * msPerUnit ≤ i64Max then some (v * msPerUnit * 1000000)
  else none

def okOr (o : Option Int) (e : RErr) : Except RErr Int :=
  match o with
  | some x => .ok x
  | none => .error e

/-- One optional numeric modifier: absent ⇒ pass-through; present ⇒
parse (with the step's `InvalidInteger` message) then run the step. -/
def numStep (field : Option String) (parse : String → Option Int) (parseErr : RErr)
    (op : Int → Except RErr Int) (n : Int) : Except RErr Int :=
  match field with
  | none => .ok n
  | some s =>
    match parse s with
    | none => .error parseErr
    | some v => op v

/-- A checked-signed-delta modifier (`try_*` bound then `checked_*`):
`sgn` is `1` for `add_`, `-1` for `sub_`. -/
def deltaStep (msPerUnit sgn n v : Int) (boundErr addErr : RErr) : Except RErr Int :=
  match tryDeltaMs v msPerUnit with
  | none => .error boundErr
  | some delta => okOr (checkedAddNanos n (sgn * delta)) addErr

/-- The modifier stage body: every modifier parameter present is applied
in the exact source order, left-to-right on the running instant. -/
def modsRun (ps : Params) (off n0 : Int) : Except RErr Int := do
  let n ← numStep ps.with_ordinal parseU32 "Invalid ordinal parameter"
    (fun v => okOr (withOrdinalOp off n0 v) "Ordinal parameter out of range") n0
  let n ← numStep ps.with_ordinal0 parseU32 "Invalid ordinal parameter"
    (fun v => okOr (withOrdinal0Op off n v) "Ordinal parameter out of range") n
  let n ← numStep ps.with_year parseI32 "Invalid year parameter"
    (fun v => okOr (withYearOp off n v) "Year parameter out of range or produces invalid date") n
  let n ← numStep ps.with_month parseU32 "Invalid month parameter"
    (fun v => okOr (withMonthOp off n v) "Month parameter out of range or produces invalid date") n
  let n ← numStep ps.with_month0 parseU32 "Invalid month parameter"
    (fun v => okOr (withMonth0Op off n v) "Month parameter out of range or produces invalid date") n
  let n ← numStep ps.with_day parseU32 "Invalid day parameter"
    (fun v => okOr (withDayOp off n v) "Day parameter out of range or produces invalid date") n
  let n ← numStep ps.with_day0 parseU32 "Invalid day parameter"
    (fun v => okOr (withDay0Op off n v) "Day parameter out of range or produces invalid date") n
  let n ← numStep ps.with_hour parseU32 "Invalid hour parameter"
    (fun v => okOr (withHourOp off n v) "Hour parameter out of range or produces invalid date") n
  let n ← numStep ps.with_minute parseU32 "Invalid minute parameter"
    (fun v => okOr (withMinuteOp off n v) "Minute parameter out of range or produces invalid date") n
  let n ← numStep ps.with_second parseU32 "Invalid second parameter"
    (fun v => okOr (withSecondOp off n v) "Second parameter out of range or produces invalid date") n
  let n ← numStep ps.with_nanosecond parseU32 "Invalid nano-second parameter"
    (fun v => okOr (withNanosecondOp off n v) "Nano-second parameter out of range or produces invalid date") n
  let n ← numStep ps.add_months parseU32 "Invalid months parameter"
    (fun v => okOr (monthsShiftOp off n v) "Months parameter out of range or produces invalid date") n
  let n ← numStep ps.add_weeks parseI64 "Invalid weeks parameter"
    (fun v => deltaStep 604800000 1 n v "Weeks parameter out of range"
      "Weeks parameter out of range or produces invalid date") n
  let n ← numStep ps.add_days parseU64 "Invalid days parameter"
    (fun v => okOr (checkedAddNanos n (v * nsPerDay)) "Days parameter out of range or produces invalid date") n
  let n ← numStep ps.add_hours parseI64 "Invalid hours parameter"
    (fun v => deltaStep 3600000 1 n v "Hours parameter out of range"
      "Hours parameter out of range or produces invalid date") n
  let n ← numStep ps.add_minutes parseI64 "Invalid minutes parameter"
    (fun v => deltaStep 60000 1 n v "Minutes parameter out of range"
      "Minutes parameter out of range or produces invalid date") n
  let n ← numStep ps.add_seconds parseI64 "Invalid seconds parameter"
    (fun v => deltaStep 1000 1 n v "Seconds parameter out of range"
      "Seconds parameter out of range or produces invalid date") n
  let n ← numStep ps.add_milliseconds parseI64 "Invalid milli-seconds parameter"
    (fun v => deltaStep 1 1 n v "Milli-seconds parameter out of range"
      "Milli-seconds parameter out of range or produces invalid date") n
  let n ← numStep ps.add_microseconds parseI64 "Invalid micro-seconds parameter"
    (fun v => okOr (checkedAddNanos n (v * 1000)) "Micro-seconds parameter out of range or produces invalid date") n
  let n ← numStep ps.add_nanoseconds parseI64 "Invalid nano-seconds parameter"
    (fun v => okOr (checkedAddNanos n v) "Nano-seconds parameter out of range or produces invalid date") n
  let n ← numStep ps.sub_months parseU32 "Invalid months parameter"
    (fun v => okOr (monthsShiftOp off n (-v)) "Months parameter out of range or produces invalid date") n
  let n ← numStep ps.sub_weeks parseI64 "Invalid weeks parameter"
    (fun v => deltaStep 604800000 (-1) n v "Weeks parameter out of range"
      "Weeks parameter out of range or produces invalid date") n
  let n ← numStep ps.sub_days parseU64 "Invalid days parameter"
    (fun v => okOr (checkedAddNanos n (-(v * nsPerDay))) "Days parameter out of range or produces invalid date") n
  let n ← numStep ps.sub_hours parseI64 "Invalid hours parameter"
    (fun v => deltaStep 3600000 (-1) n v "Hours parameter out of range"
      "Hours parameter out of range or produces invalid date") n
  let n ← numStep ps.sub_minutes parseI64 "Invalid minutes parameter"
    (fun v => deltaStep 60000 (-1) n v "Minutes parameter out of range"
      "Minutes parameter out of range or produces invalid date") n
  let n ← numStep ps.sub_seconds parseI64 "Invalid seconds parameter"
    (fun v => deltaStep 1000 (-1) n v "Seconds parameter out of range"
      "Seconds parameter out of range or produces invalid date") n
  let n ← numStep ps.sub_milliseconds parseI64 "Invalid milli-seconds parameter"
    (fun v => deltaStep 1 (-1) n v "Milli-seconds parameter out of range"
      "Milli-seconds parameter out of range or produces invalid date") n
  let n ← numStep ps.sub_microseconds parseI64 "Invalid micro-seconds parameter"
    (fun v => okOr (checkedAddNanos n (-(v * 1000))) "Micro-seconds parameter out of range or produces invalid date") n
  let n ← numStep ps.sub_nanoseconds parseI64 "Invalid nano-seconds parameter"
    (fun v => okOr (checkedAddNanos n (-v)) "Nano-seconds parameter out of range or produces invalid date") n
  pure n

/-- The modifier stage after `with_timezone`: the display offset is a
constant throughout (every chrono field setter and checked arithmetic
step on a `DateTime<FixedOffset>` preserves it). -/
def modStage (ps : Params) (dt : DTF) : Except RErr DTF :=
  (modsRun ps dt.offset dt.nanos).map (fun n => ⟨n, dt.offset⟩)

/-! ### Finalizer stage (src/datetime.rs lines 620-683) -/

/-- chrono `timestamp()`: whole seconds since the epoch (floor). -/
def tsSecs (dt : DTF) : Int := Int.fdiv dt.nanos nsPerSec

/-- chrono `timestamp_millis()`. -/
def tsMillis (dt : DTF) : Int := Int.fdiv dt.nanos 1000000

/-- chrono `timestamp_micros()`. -/
def tsMicros (dt : DTF) : Int := Int.fdiv dt.nanos 1000

/-- chrono `timestamp_nanos_opt()`: `some` only when the count fits an `i64`. -/
def tsNanosOpt (dt : DTF) : Option Int :=
  if i64Min ≤ dt.nanos ∧ dt.nanos ≤ i64Max then some dt.nanos else none

/-- The `output_format` branch (with its nested optional `locale`). -/
def finOutputFormat (fmt : String) (locO : Option String) (dt : DTF) : Except RErr String :=
  match locO with
  | some loc =>
    if localeOk loc then .ok (formatLocalized fmt loc dt)
    else .error "Invalid locale provided"
  | none => .ok (formatDt fmt dt)

/-- The `years_since` branch: parse the base as RFC 3339, then
`years_since`. -/
def finYearsSince (b : String) (dt : DTF) : Except RErr String :=
  match parseRfc3339 b with
  | none => .error "Invalid RFC3339 datetime format"
  | some base =>
    match yearsSince dt base with
    | none => .error "Negative range, try swapping the parameters."
    | some k => .ok (toString k)

/-- The `to_timestamp_nanos` branch. -/
def finTimestampNanos (dt : DTF) : Except RErr String :=
  match tsNanosOpt dt with
  | some n => .ok (toString n)
  | none => .error "An i64 with nanosecond precision can span a range of ~584 years. This timestamp is out of range."

/-- The finalizer stage: the if/else-if chain over the output
parameters, in source order, defaulting to `to_rfc3339()`. -/
def finStage (ps : Params) (dt : DTF) : Except RErr String :=
  match ps.output_format with
  | some fmt => finOutputFormat fmt ps.locale dt
  | none =>
  if ps.to_rfc2822.isSome then .ok (toRfc2822 dt)
  else if ps.to_timestamp.isSome then .ok (toString (tsSecs dt))
  else if ps.to_timestamp_millis.isSome then .ok (toString (tsMillis dt))
  else if ps.to_timestamp_micros.isSome then .ok (toString (tsMicros dt))
  else if ps.to_timestamp_nanos.isSome then finTimestampNanos dt
  else
    match ps.years_since with
    | some b => finYearsSince b dt
    | none => .ok (toRfc3339 dt)

/-! ### The full pipeline -/

/-- `HandlebarsChronoDateTime::call`: initializer, timezone step,
remaining modifiers, finalizer, each `?`-propagating its error. -/
def call (db : ZoneDb) (localOff now : Int) (ps : Params) : Except RErr String := do
  let dt ← initStage ps now
  let dtf ← tzStage db localOff ps dt
  let dtf ← modStage ps dtf
  finStage ps dtf

/-- The call together with the trace of writes to the caller-supplied
output sink: `out.write(&output)` runs once, after every fallible step,
so the sink receives exactly the final output on success and nothing on
failure. -/
def callRun (db : ZoneDb) (localOff now : Int) (ps : Params) : Except RErr Unit × List String :=
  match call db localOff now ps with
  | .ok s => (.ok (), [s])
  | .error e => (.error e, [])

/-! ### Concrete fixtures used by witnesses and counterexamples -/

/-- Two sources present at once: `from_timestamp` must win. -/
def psPriority : Params :=
  { emptyParams with from_timestamp := some "618658211", from_rfc3339 := some "1985-06-16T12:00:00Z" }

/-- A well-formed fixed offset that contains no `0` character. -/
def psOffsetNoZero : Params :=
  { emptyParams with from_timestamp := some "618658211", with_timezone := some "+12:15" }

/-- The spec's literal non-numeric `from_timestamp` failure case. -/
def psBadTimestamp : Params :=
  { emptyParams with from_timestamp := some "618658ergwerg211" }

/-- A fixed-offset timezone request. -/
def psFixedTz : Params :=
  { emptyParams with from_timestamp := some "618658211", with_timezone := some "+02:00" }

/-- `from_str` present without `input_format`, shadowed by `from_timestamp`. -/
def psShadowedFromStr : Params :=
  { emptyParams with from_timestamp := some "0", from_str := some "1985_06_16", to_timestamp := some "true" }

/-- `from_str` selected (no earlier source) and `input_format` absent. -/
def psMissingFormat : Params :=
  { emptyParams with from_str := some "1985-06-16 12:00:00" }

/-- A `years_since` finalizer request. -/
def psYears : Params :=
  { emptyParams with years_since := some "1985-06-16T12:00:00Z" }

/-- An IANA timezone request followed by later arithmetic. -/
def psIana : Params :=
  { emptyParams with from_timestamp := some "618658211",
                     with_timezone := some "America/Edmonton", add_months := some "240" }

/-- A custom-format initializer request. -/
def psFromStr : Params :=
  { emptyParams with from_str := some "1989-08-09 09:30:11",
                     input_format := some "%Y-%m-%d %H:%M:%S" }

def edmontonRule1 : Int → Int := fun _ => -21600

def edmontonRule2 : Int → Int := fun n => if n < 700000000000000000 then -21600 else -25200

/-- A zone database resolving America/Edmonton with a constant rule. -/
def dbFrozen1 : ZoneDb := ⟨fun z => if z = "America/Edmonton" then some edmontonRule1 else none⟩

/-- A second database whose rule agrees with `edmontonRule1` at the test
instant but diverges at later instants (a DST-style transition). -/
def dbFrozen2 : ZoneDb := ⟨fun z => if z = "America/Edmonton" then some edmontonRule2 else none⟩

/-! ### Claim theorems -/

/-- Claim C1: the initializer tries the source parameters in the fixed
priority order `from_timestamp`, `from_timestamp_millis`,
`from_timestamp_micros`, `from_timestamp_nanos`, `from_rfc2822`,
`from_rfc3339`, `from_str`; for every parameter set the first present
source alone determines the starting instant (the stage's result is a
function of that parameter's value only, so all later source parameters
are ignored even if present), and when none is present the current UTC
wall-clock time is used. -/
theorem initializer_priority_order (ps : Params) (now : Int) :
    (∀ s, ps.from_timestamp = some s → initStage ps now = initFromTimestamp s) ∧
    (∀ s, ps.from_timestamp = none → ps.from_timestamp_millis = some s →
      initStage ps now = initFromTimestampMillis s) ∧
    (∀ s, ps.from_timestamp = none → ps.from_timestamp_millis = none →
      ps.from_timestamp_micros = some s → initStage ps now = initFromTimestampMicros s) ∧
    (∀ s, ps.from_timestamp = none → ps.from_timestamp_millis = none →
      ps.from_timestamp_micros = none → ps.from_timestamp_nanos = some s →
      initStage ps now = initFromTimestampNanos s) ∧
    (∀ s, ps.from_timestamp = none → ps.from_timestamp_millis = none →
      ps.from_timestamp_micros = none → ps.from_timestamp_nanos = none →
      ps.from_rfc2822 = some s → initStage ps now = initFromRfc2822 s) ∧
    (∀ s, ps.from_timestamp = none → ps.from_timestamp_millis = none →
      ps.from_timestamp_micros = none → ps.from_timestamp_nanos = none →
      ps.from_rfc2822 = none → ps.from_rfc3339 = some s →
      initStage ps now = initFromRfc3339 s) ∧
    (∀ s, ps.from_timestamp = none → ps.from_timestamp_millis = none →
      ps.from_timestamp_micros = none → ps.from_timestamp_nanos = none →
      ps.from_rfc2822 = none → ps.from_rfc3339 = none → ps.from_str = some s →
      initStage ps now = initFromStr s ps.input_format) ∧
    (ps.from_timestamp = none → ps.from_timestamp_millis = none →
      ps.from_timestamp_micros = none → ps.from_timestamp_nanos = none →
      ps.from_rfc2822 = none → ps.from_rfc3339 = none → ps.from_str = none →
      initStage ps now = .ok now) := by
  refine ⟨?_, ?_, ?_, ?_, ?_, ?_, ?_, ?_⟩ <;> intros <;> simp_all [initStage]

/-- Witness for C1: with both `from_timestamp` and `from_rfc3339`
present, the initializer is decided by `from_timestamp` alone. -/
theorem initializer_priority_order_witness :
    psPriority.from_timestamp = some "618658211" ∧
    psPriority.from_rfc3339 = some "1985-06-16T12:00:00Z" ∧
    initStage psPriority 0 = initFromTimestamp "618658211" :=
  ⟨rfl, rfl, (initializer_priority_order psPriority 0).1 "618658211" rfl⟩

/-- Claim C2: the finalizer selects exactly one output mode, checking in
the fixed priority order `output_format` (with its nested optional
`locale`), `to_rfc2822`, `to_timestamp`, `to_timestamp_millis`,
`to_timestamp_micros`, `to_timestamp_nanos`, `years_since`; the first
present parameter wins, and when none is present the output is the
RFC 3339 string of the instant. -/
theorem finalizer_priority_order (ps : Params) (dt : DTF) :
    (∀ fmt, ps.output_format = some fmt → finStage ps dt = finOutputFormat fmt ps.locale dt) ∧
    (∀ v, ps.output_format = none → ps.to_rfc2822 = some v →
      finStage ps dt = .ok (toRfc2822 dt)) ∧
    (∀ v, ps.output_format = none → ps.to_rfc2822 = none → ps.to_timestamp = some v →
      finStage ps dt = .ok (toString (tsSecs dt))) ∧
    (∀ v, ps.output_format = none → ps.to_rfc2822 = none → ps.to_timestamp = none →
      ps.to_timestamp_millis = some v → finStage ps dt = .ok (toString (tsMillis dt))) ∧
    (∀ v, ps.output_format = none → ps.to_rfc2822 = none → ps.to_timestamp = none →
      ps.to_timestamp_millis = none → ps.to_timestamp_micros = some v →
      finStage ps dt = .ok (toString (tsMicros dt))) ∧
    (∀ v, ps.output_format = none → ps.to_rfc2822 = none → ps.to_timestamp = none →
      ps.to_timestamp_millis = none → ps.to_timestamp_micros = none →
      ps.to_timestamp_nanos = some v → finStage ps dt = finTimestampNanos dt) ∧
    (∀ b, ps.output_format = none → ps.to_rfc2822 = none → ps.to_timestamp = none →
      ps.to_timestamp_millis = none → ps.to_timestamp_micros = none →
      ps.to_timestamp_nanos = none → ps.years_since = some b →
      finStage ps dt = finYearsSince b dt) ∧
    (ps.output_format = none → ps.to_rfc2822 = none → ps.to_timestamp = none →
      ps.to_timestamp_millis = none → ps.to_timestamp_micros = none →
      ps.to_timestamp_nanos = none → ps.years_since = none →
      finStage ps dt = .ok (toRfc3339 dt)) := by
  refine ⟨?_, ?_, ?_, ?_, ?_, ?_, ?_, ?_⟩ <;> intros <;> simp_all [finStage]

/-- Witness for C2: with both `to_rfc2822` and `to_timestamp` present,
the finalizer is decided by `to_rfc2822` alone. -/
theorem finalizer_priority_order_witness :
    finStage { emptyParams with to_rfc2822 := some "true", to_timestamp := some "true" }
        ⟨618658211000000000, 0⟩ =
      .ok (toRfc2822 ⟨618658211000000000, 0⟩) :=
  (finalizer_priority_order _ _).2.1 "true" rfl rfl

/-- Claim C3 counterexample: `"+12:15"` is a well-formed fixed offset of
the form `±HH:MM` (12 h 15 min east, within range), yet because the
value contains no `0` character the source's `contains('0')` heuristic
routes it to the IANA-zone branch, where it is rejected — so the claim
that every well-formed fixed numeric offset is accepted is false. -/
theorem wellformed_offset_without_zero_rejected :
    parseFixedOffset "+12:15" = some 44100 ∧
    call sampleDb 0 0 psOffsetNoZero =
      .error "Failed to parse IANA timezone. Supported values are IANA timezones, local or valid fixed offset" :=
  ⟨rfl, rfl⟩

/-- Claim C3 (amended): the `with_timezone` modifier accepts the literal
`local` (case-insensitively); when the value contains the character `0`
it accepts exactly the well-formed fixed numeric offsets and fails with
the offset-parse error otherwise; when the value contains no `0` (and is
not `local`) it accepts exactly the recognized IANA zone identifiers and
fails with the IANA error otherwise — in particular `-2500` fails (out
of the ±24 h range) and `Plovdiv` fails (not a recognized zone). -/
theorem with_timezone_acceptance (db : ZoneDb) (lo dt : Int) (ps : Params) (s : String)
    (hps : ps.with_timezone = some s) :
    (lowerAscii s = "local" → tzStage db lo ps dt = .ok ⟨dt, lo⟩) ∧
    (lowerAscii s ≠ "local" → s.data.contains '0' = true →
      (∀ off, parseFixedOffset s = some off → tzStage db lo ps dt = .ok ⟨dt, off⟩) ∧
      (parseFixedOffset s = none →
        tzStage db lo ps dt =
          .error "Failed to parse timezone offset. Supported values are IANA timezones, local or valid fixed offset")) ∧
    (lowerAscii s ≠ "local" → s.data.contains '0' = false →
      (∀ rule, db.lookup s = some rule → tzStage db lo ps dt = .ok ⟨dt, rule dt⟩) ∧
      (db.lookup s = none →
        tzStage db lo ps dt =
          .error "Failed to parse IANA timezone. Supported values are IANA timezones, local or valid fixed offset")) ∧
    parseFixedOffset "-2500" = none ∧
    sampleDb.lookup "Plovdiv" = none := by
  refine ⟨?_, ?_, ?_, rfl, rfl⟩
  · intro hl
    simp [tzStage, hps, hl]
  · intro hl hz
    have hz' : '0' ∈ s.data := by simpa using hz
    constructor
    · intro off hoff
      simp [tzStage, hps, hl, hz', hoff]
    · intro hoff
      simp [tzStage, hps, hl, hz', hoff]
  · intro hl hz
    have hz' : '0' ∉ s.data := by simpa using hz
    constructor
    · intro rule hrule
      simp [tzStage, hps, hl, hz', hrule]
    · intro hrule
      simp [tzStage, hps, hl, hz', hrule]

/-- Witness for C3 (amended): the three accepting shapes at concrete
values — `local`, the fixed offset `+02:00`, and the recognized zone
America/Edmonton — and the two failing literals from the claim. -/
theorem with_timezone_acceptance_witness :
    tzStage sampleDb 3600 { emptyParams with with_timezone := some "local" } 0 = .ok ⟨0, 3600⟩ ∧
    tzStage sampleDb 0 psFixedTz 618658211000000000 = .ok ⟨618658211000000000, 7200⟩ ∧
    tzStage sampleDb 0 { emptyParams with with_timezone := some "America/Edmonton" } 0 =
      .ok ⟨0, -25200⟩ ∧
    tzStage sampleDb 0 { emptyParams with with_timezone := some "-2500" } 0 =
      .error "Failed to parse timezone offset. Supported values are IANA timezones, local or valid fixed offset" ∧
    tzStage sampleDb 0 { emptyParams with with_timezone := some "Plovdiv" } 0 =
      .error "Failed to parse IANA timezone. Supported values are IANA timezones, local or valid fixed offset" := by
  refine ⟨?_, ?_, ?_, ?_, ?_⟩
  · exact (with_timezone_acceptance sampleDb 3600 0 _ "local" rfl).1 (by decide)
  · exact ((with_timezone_acceptance sampleDb 0 618658211000000000 psFixedTz "+02:00" rfl).2.1
      (by decide) (by decide)).1 7200 (by decide)
  · exact ((with_timezone_acceptance sampleDb 0 0 _ "America/Edmonton" rfl).2.2.1
      (by decide) (by decide)).1 (fun _ => -25200) rfl
  · exact ((with_timezone_acceptance sampleDb 0 0 _ "-2500" rfl).2.1
      (by decide) (by decide)).2 (by decide)
  · exact ((with_timezone_acceptance sampleDb 0 0 _ "Plovdiv" rfl).2.2.1
      (by decide) (by decide)).2 rfl

/-- Claim C4: on any failure at any stage the pipeline aborts at the
first error, that error is returned verbatim to the caller and nothing
is written to the output sink; on full success the sink is written
exactly once, with the final output. -/
theorem pipeline_fail_fast_sink (db : ZoneDb) (lo now : Int) (ps : Params) :
    ((∃ e, call db lo now ps = .error e ∧ callRun db lo now ps = (.error e, [])) ∨
     (∃ s, call db lo now ps = .ok s ∧ callRun db lo now ps = (.ok (), [s]))) ∧
    (∀ e, initStage ps now = .error e → call db lo now ps = .error e) ∧
    (∀ dt e, initStage ps now = .ok dt → tzStage db lo ps dt = .error e →
      call db lo now ps = .error e) ∧
    (∀ dt dtf e, initStage ps now = .ok dt → tzStage db lo ps dt = .ok dtf →
      modStage ps dtf = .error e → call db lo now ps = .error e) ∧
    (∀ dt dtf dtf2 e, initStage ps now = .ok dt → tzStage db lo ps dt = .ok dtf →
      modStage ps dtf = .ok dtf2 → finStage ps dtf2 = .error e →
      call db lo now ps = .error e) ∧
    (∀ dt dtf dtf2 s, initStage ps now = .ok dt → tzStage db lo ps dt = .ok dtf →
      modStage ps dtf = .ok dtf2 → finStage ps dtf2 = .ok s →
      call db lo now ps = .ok s ∧ callRun db lo now ps = (.ok (), [s])) := by
  refine ⟨?_, ?_, ?_, ?_, ?_, ?_⟩
  · cases h : call db lo now ps with
    | ok s => exact Or.inr ⟨s, rfl, by simp [callRun, h]⟩
    | error e => exact Or.inl ⟨e, rfl, by simp [callRun, h]⟩
  · intro e h1
    simp [call, h1, Bind.bind, Except.bind]
  · intro dt e h1 h2
    simp [call, h1, h2, Bind.bind, Except.bind]
  · intro dt dtf e h1 h2 h3
    simp [call, h1, h2, h3, Bind.bind, Except.bind]
  · intro dt dtf dtf2 e h1 h2 h3 h4
    simp [call, h1, h2, h3, h4, Bind.bind, Except.bind]
  · intro dt dtf dtf2 s h1 h2 h3 h4
    have hc : call db lo now ps = .ok s := by
      simp [call, h1, h2, h3, h4, Bind.bind, Except.bind]
    exact ⟨hc, by simp [callRun, hc]⟩

/-- Witness for C4: the spec's literal non-numeric `from_timestamp`
makes the initializer fail, the same error surfaces from the call, and
the sink trace is empty. -/
theorem pipeline_fail_fast_sink_witness :
    initStage psBadTimestamp 0 = .error "Invalid seconds timestamp" ∧
    call sampleDb 0 0 psBadTimestamp = .error "Invalid seconds timestamp" ∧
    callRun sampleDb 0 0 psBadTimestamp = (.error "Invalid seconds timestamp", []) := by
  have hc := (pipeline_fail_fast_sink sampleDb 0 0 psBadTimestamp).2.1
    "Invalid seconds timestamp" rfl
  exact ⟨rfl, hc, by simp [callRun, hc]⟩

/-- Claim C5: for every instant and every accepted `with_timezone`
value, the timezone step leaves the absolute instant unchanged — the
result's nanosecond (hence epoch-second) count equals the input's; only
the display offset changes. -/
theorem with_timezone_preserves_instant (db : ZoneDb) (lo : Int) (ps : Params)
    (dt : Int) (out : DTF) (h : tzStage db lo ps dt = .ok out) : out.nanos = dt := by
  unfold tzStage at h
  repeat' split at h
  all_goals first
  | (cases h; rfl)
  | simp_all

/-- Witness for C5: converting the instant 618658211 s to the `+02:00`
display offset keeps its nanosecond count. -/
theorem with_timezone_preserves_instant_witness :
    tzStage sampleDb 0 psFixedTz 618658211000000000 = .ok ⟨618658211000000000, 7200⟩ ∧
    (DTF.mk 618658211000000000 7200).nanos = 618658211000000000 :=
  ⟨rfl, with_timezone_preserves_instant sampleDb 0 psFixedTz 618658211000000000
    ⟨618658211000000000, 7200⟩ rfl⟩

/-- Claim C6 counterexample: `from_str` is present and `input_format`
absent, yet because `from_timestamp` is also present (and has higher
priority) the pipeline succeeds instead of failing with the
missing-parameter error — the claim's "whenever" is too strong. -/
theorem from_str_shadowed_no_missing_parameter :
    psShadowedFromStr.from_str = some "1985_06_16" ∧
    psShadowedFromStr.input_format = none ∧
    call sampleDb 0 0 psShadowedFromStr = .ok "0" :=
  ⟨rfl, rfl, rfl⟩

/-- Claim C6 (amended): whenever `from_str` is the selected source — no
higher-priority source parameter is present — and `input_format` is
absent, the pipeline fails with the missing-parameter error, regardless
of the `from_str` value. -/
theorem missing_input_format_fails (db : ZoneDb) (lo now : Int) (ps : Params) (s : String)
    (h1 : ps.from_timestamp = none) (h2 : ps.from_timestamp_millis = none)
    (h3 : ps.from_timestamp_micros = none) (h4 : ps.from_timestamp_nanos = none)
    (h5 : ps.from_rfc2822 = none) (h6 : ps.from_rfc3339 = none)
    (h7 : ps.from_str = some s) (h8 : ps.input_format = none) :
    initStage ps now = .error "Missing `input_format` hash parameter" ∧
    call db lo now ps = .error "Missing `input_format` hash parameter" := by
  have hi : initStage ps now = .error "Missing `input_format` hash parameter" := by
    simp [initStage, initFromStr, h1, h2, h3, h4, h5, h6, h7, h8]
  exact ⟨hi, by simp [call, hi, Bind.bind, Except.bind]⟩

/-- Witness for C6 (amended): a parameter set whose only source
parameter is `from_str` fails with the missing-parameter error. -/
theorem missing_input_format_fails_witness :
    call sampleDb 0 0 psMissingFormat = .error "Missing `input_format` hash parameter" :=
  (missing_input_format_fails sampleDb 0 0 psMissingFormat "1985-06-16 12:00:00"
    rfl rfl rfl rfl rfl rfl rfl rfl).2

/-- Claim C7: for every representable integer T (given as the rendered
text of the parameter), invoking with `from_timestamp` = T and
`to_timestamp` produces the text of T, and invoking with
`from_timestamp_millis` = T·1000 and `to_timestamp_millis` produces the
text of T·1000 — the initializer and the matching timestamp finalizer
are mutually inverse. -/
theorem epoch_equivalence (db : ZoneDb) (lo now : Int) (s s2 t t2 : String) (T M : Int) :
    (parseI64 s = some T → tsSecsMin ≤ T → T ≤ tsSecsMax →
      call db lo now { emptyParams with from_timestamp := some s, to_timestamp := some t } =
        .ok (toString T)) ∧
    (parseI64 s2 = some (M * 1000) → tsMillisMin ≤ M * 1000 → M * 1000 ≤ tsMillisMax →
      call db lo now
          { emptyParams with from_timestamp_millis := some s2, to_timestamp_millis := some t2 } =
        .ok (toString (M * 1000))) := by
  constructor
  · intro hp hlo hhi
    have hns : (nsPerSec : Int) ≠ 0 := by norm_num [nsPerSec]
    simp [call, initStage, initFromTimestamp, hp, hlo, hhi, tzStage, modStage, modsRun, numStep,
      finStage, tsSecs, emptyParams, Bind.bind, Except.bind, Except.map, pure, Except.pure,
      Int.mul_fdiv_cancel _ hns]
  · intro hp hlo hhi
    have hms : (1000000 : Int) ≠ 0 := by norm_num
    simp [call, initStage, initFromTimestampMillis, hp, hlo, hhi, tzStage, modStage, modsRun,
      numStep, finStage, tsMillis, emptyParams, Bind.bind, Except.bind, Except.map, pure,
      Except.pure, Int.mul_fdiv_cancel _ hms]

/-- Witness for C7: T = 618658211 round-trips through seconds, and
T·1000 = 618658211000 through milliseconds. -/
theorem epoch_equivalence_witness :
    parseI64 "618658211" = some 618658211 ∧
    call sampleDb 0 0
        { emptyParams with from_timestamp := some "618658211", to_timestamp := some "true" } =
      .ok (toString (618658211 : Int)) ∧
    call sampleDb 0 0
        { emptyParams with from_timestamp_millis := some "618658211000",
                           to_timestamp_millis := some "true" } =
      .ok (toString ((618658211 : Int) * 1000)) := by
  have h := epoch_equivalence sampleDb 0 0 "618658211" "618658211000" "true" "true"
    618658211 618658211
  exact ⟨rfl, h.1 (by decide) (by decide) (by decide),
    h.2 (by decide) (by decide) (by decide)⟩

/-- Claim C8: when the finalizer reaches `years_since`, a base text that
does not parse as RFC 3339 fails with the invalid-format error; a base
instant later than the pipeline's instant fails with the negative-range
error; otherwise the output is the whole number of calendar-aware
elapsed years from the base to the instant. -/
theorem years_since_finalizer (ps : Params) (dt : DTF) (b : String)
    (h1 : ps.output_format = none) (h2 : ps.to_rfc2822 = none) (h3 : ps.to_timestamp = none)
    (h4 : ps.to_timestamp_millis = none) (h5 : ps.to_timestamp_micros = none)
    (h6 : ps.to_timestamp_nanos = none) (h7 : ps.years_since = some b) :
    (parseRfc3339 b = none → finStage ps dt = .error "Invalid RFC3339 datetime format") ∧
    (∀ base, parseRfc3339 b = some base →
      (dt.nanos < base → yearsSince dt base = none ∧
        finStage ps dt = .error "Negative range, try swapping the parameters.") ∧
      (base ≤ dt.nanos → ∃ k, yearsSince dt base = some k ∧
        finStage ps dt = .ok (toString k))) := by
  constructor
  · intro hb
    simp [finStage, finYearsSince, h1, h2, h3, h4, h5, h6, h7, hb]
  · intro base hb
    constructor
    · intro hlt
      have hy : yearsSince dt base = none := by simp [yearsSince, hlt]
      exact ⟨hy, by simp [finStage, finYearsSince, h1, h2, h3, h4, h5, h6, h7, hb, hy]⟩
    · intro hle
      have hy : yearsSince dt base = some (yearsCount dt base).toNat := by
        simp [yearsSince, not_lt.mpr hle]
      exact ⟨(yearsCount dt base).toNat, hy,
        by simp [finStage, finYearsSince, h1, h2, h3, h4, h5, h6, h7, hb, hy]⟩

/-- Witness for C8: the instant 618658211 s against the base
1985-06-16T12:00:00Z yields four whole years ("4"); a malformed base
fails with the invalid-format error; a later base fails with the
negative-range error. -/
theorem years_since_finalizer_witness :
    finStage psYears ⟨618658211000000000, 0⟩ = .ok (toString (4 : Nat)) ∧
    finStage { emptyParams with years_since := some "1985_06_16T12_00_00Z" }
        ⟨618658211000000000, 0⟩ =
      .error "Invalid RFC3339 datetime format" ∧
    finStage psYears ⟨0, 0⟩ = .error "Negative range, try swapping the parameters." := by
  have hok := ((years_since_finalizer psYears ⟨618658211000000000, 0⟩ "1985-06-16T12:00:00Z"
    rfl rfl rfl rfl rfl rfl rfl).2 487771200000000000 (by decide)).2 (by decide)
  have hbad := (years_since_finalizer { emptyParams with years_since := some "1985_06_16T12_00_00Z" }
    ⟨618658211000000000, 0⟩ "1985_06_16T12_00_00Z" rfl rfl rfl rfl rfl rfl rfl).1 (by decide)
  have hneg := ((years_since_finalizer psYears ⟨0, 0⟩ "1985-06-16T12:00:00Z"
    rfl rfl rfl rfl rfl rfl rfl).2 487771200000000000 (by decide)).1 (by decide)
  obtain ⟨k, hk, hout⟩ := hok
  have hk4 : k = 4 := by
    have : yearsSince ⟨618658211000000000, 0⟩ 487771200000000000 = some 4 := by decide
    rw [hk] at this
    exact Option.some_injective _ this
  exact ⟨hk4 ▸ hout, hbad, hneg.2⟩

/-- The modifier stage never changes the display offset fixed by the
timezone step. -/
theorem modStage_offset_eq (ps : Params) (dt dt2 : DTF)
    (h : modStage ps dt = .ok dt2) : dt2.offset = dt.offset := by
  unfold modStage at h
  cases hm : modsRun ps dt.offset dt.nanos with
  | ok n => rw [hm] at h; cases h; rfl
  | error e => rw [hm] at h; cases h

/-- Claim C9: when `with_timezone` names an IANA zone, the zone's offset
is resolved once, at the instant the pipeline holds at that point, and
frozen as a fixed offset: the timezone step yields exactly that offset,
every subsequent modifier keeps it, and the whole call result is
unchanged if the zone database is replaced by one whose rule merely
agrees at that single instant (so later arithmetic never re-resolves the
zone). -/
theorem iana_offset_frozen (db1 db2 : ZoneDb) (lo now : Int) (ps : Params) (z : String)
    (f1 f2 : Int → Int) (dt0 : Int)
    (hps : ps.with_timezone = some z)
    (hl : lowerAscii z ≠ "local")
    (hz : z.data.contains '0' = false)
    (hdb1 : db1.lookup z = some f1) (hdb2 : db2.lookup z = some f2)
    (hinit : initStage ps now = .ok dt0)
    (hagree : f1 dt0 = f2 dt0) :
    tzStage db1 lo ps dt0 = .ok ⟨dt0, f1 dt0⟩ ∧
    (∀ dt dt2, modStage ps dt = .ok dt2 → dt2.offset = dt.offset) ∧
    call db1 lo now ps = call db2 lo now ps := by
  have hz' : '0' ∉ z.data := by simpa using hz
  have ht1 : tzStage db1 lo ps dt0 = .ok ⟨dt0, f1 dt0⟩ := by
    simp [tzStage, hps, hl, hz', hdb1]
  have ht2 : tzStage db2 lo ps dt0 = .ok ⟨dt0, f2 dt0⟩ := by
    simp [tzStage, hps, hl, hz', hdb2]
  refine ⟨ht1, fun dt dt2 h => modStage_offset_eq ps dt dt2 h, ?_⟩
  simp [call, hinit, ht1, ht2, hagree, Bind.bind, Except.bind]

/-- Witness for C9: two databases whose Edmonton rules agree at the
initial instant but diverge at later instants give identical call
results, with the offset frozen at the initial resolution even though
`add_months` moves the instant past the divergence point. -/
theorem iana_offset_frozen_witness :
    tzStage dbFrozen1 0 psIana 618658211000000000 = .ok ⟨618658211000000000, -21600⟩ ∧
    call dbFrozen1 0 0 psIana = call dbFrozen2 0 0 psIana ∧
    edmontonRule1 618658211000000000 = edmontonRule2 618658211000000000 ∧
    edmontonRule1 1249658211000000000 ≠ edmontonRule2 1249658211000000000 := by
  have h := iana_offset_frozen dbFrozen1 dbFrozen2 0 0 psIana "America/Edmonton"
    edmontonRule1 edmontonRule2 618658211000000000 rfl (by decide) (by decide)
    rfl rfl rfl (by decide)
  have hfrozen : edmontonRule1 618658211000000000 = -21600 := rfl
  exact ⟨by simpa [hfrozen] using h.1, h.2.2, by decide, by decide⟩

/-- Claim C10: whenever `from_str` is the selected source and the input
parses under the given `input_format`, the parsed wall-clock fields are
interpreted as UTC: the initializer returns exactly the naive parsed
date-time taken as UTC, and (with no `with_timezone`) the instant enters
the modifier stage carrying a zero display offset — independent of any
timezone content in the input text or format, since the naive parse
carries none. -/
theorem from_str_parsed_as_utc (ps : Params) (now : Int) (s fmt : String) (n : Int)
    (h1 : ps.from_timestamp = none) (h2 : ps.from_timestamp_millis = none)
    (h3 : ps.from_timestamp_micros = none) (h4 : ps.from_timestamp_nanos = none)
    (h5 : ps.from_rfc2822 = none) (h6 : ps.from_rfc3339 = none)
    (h7 : ps.from_str = some s) (h8 : ps.input_format = some fmt)
    (hp : parseFromStr s fmt = some n) :
    initStage ps now = .ok n ∧
    (ps.with_timezone = none → ∀ db lo, tzStage db lo ps n = .ok ⟨n, 0⟩) := by
  constructor
  · simp [initStage, initFromStr, h1, h2, h3, h4, h5, h6, h7, h8, hp]
  · intro htz db lo
    simp [tzStage, htz]

/-- Witness for C10: `"1989-08-09 09:30:11"` under `"%Y-%m-%d %H:%M:%S"`
initializes to exactly 618658211 s taken as UTC, with zero offset. -/
theorem from_str_parsed_as_utc_witness :
    initStage psFromStr 0 = .ok 618658211000000000 ∧
    tzStage sampleDb 7200 psFromStr 618658211000000000 = .ok ⟨618658211000000000, 0⟩ := by
  have h := from_str_parsed_as_utc psFromStr 0 "1989-08-09 09:30:11" "%Y-%m-%d %H:%M:%S"
    618658211000000000 rfl rfl rfl rfl rfl rfl rfl rfl (by decide)
  exact ⟨h.1, h.2 rfl sampleDb 7200⟩
